import Mathlib

/-!
# Verification of `geonode/upload/forms.py`

A shallow embedding of the upload-form validation layer of the repository:
`LayerUploadForm` (upload size guard and bundle-validator dispatch),
`TimeForm` (dynamic time-attribute choice fields and start/end resolution),
together with proofs of the specified properties.

Conventions of the embedding:
* An uploaded Django file is modelled by its byte size (`DjangoFile`).
* `self.files` (a dict from form field name to uploaded file) is modelled as an
  association list `List (String × DjangoFile)`.
* The ORM table behind `UploadSizeLimit` is modelled as an explicit record list
  (`DB`); `objects.get(slug=...)` becomes a lookup returning `Option`, and the
  `DoesNotExist` branch becomes the `none` case.
* Python exceptions (`ValidationError`) become `Except String`; the error
  payload is the message string.
* Django's external `filesizeformat` template filter is abstracted as a
  parameter `fsf : Nat → String`, and the external bundle classifier
  `validate_uploaded_files` as a function parameter, since both live outside
  this file; the form code only pipes their results through.
* In-place mutation (Python's `list.sort()`) is modelled by explicit state
  passing: functions return the updated lists.
-/

namespace Geonode

/-- An uploaded file as the form layer sees it: Django exposes `size` in bytes. -/
structure DjangoFile where
  size : Nat
deriving DecidableEq, Repr

/-- A row of the persisted `UploadSizeLimit` table: keyed by `slug`, holding a
maximum byte size `max_size`. -/
structure UploadSizeLimit where
  slug : String
  max_size : Nat
deriving DecidableEq, Repr

/-- The persisted state backing `UploadSizeLimit.objects`. -/
structure DB where
  records : List UploadSizeLimit
deriving DecidableEq, Repr

/-- `UploadSizeLimit.objects.get(slug=s)`: the record keyed by `s`, if present. -/
def dbGet (db : DB) (s : String) : Option UploadSizeLimit :=
  db.records.find? (fun r => r.slug == s)

/-- Modelled from the spec: the byte value of the default size limit created on
first access ("created with a default value on first access if absent"); the
numeric default lives in `geonode/upload/models.py`, outside this file. -/
def default_max_size : Nat := 104857600

/-- Modelled from the spec: `UploadSizeLimit.objects.create_default_limit()`
(defined in `geonode/upload/models.py`, outside this file) creates and persists
the default record for slug `"total_upload_size_sum"` and returns it. -/
def create_default_limit (db : DB) : UploadSizeLimit × DB :=
  let r : UploadSizeLimit := ⟨"total_upload_size_sum", default_max_size⟩
  (r, ⟨db.records ++ [r]⟩)

/-- `LayerUploadForm._get_uploads_max_size`: fetch the record with slug
`"total_upload_size_sum"`; on `DoesNotExist` create the default record.
Returns the record's `max_size` together with the (possibly updated) state. -/
def get_uploads_max_size (db : DB) : Nat × DB :=
  match dbGet db "total_upload_size_sum" with
  | some max_size_db_obj => (max_size_db_obj.max_size, db)
  | none =>
      let created := create_default_limit db
      (created.1.max_size, created.2)

/-- The `excluded_files` tuple of `_get_uploaded_files_total_size`. -/
def excluded_files : List String := ["zip_file", "shp_file"]

/-- `LayerUploadForm._get_uploaded_files_total_size`: the sum of the sizes of
all submitted files whose field name is not in `excluded_files`. -/
def get_uploaded_files_total_size (files : List (String × DjangoFile)) : Nat :=
  ((files.filter (fun p => !(excluded_files.contains p.1))).map
    (fun p => p.2.size)).sum

/-- `LayerUploadForm.validate_files_sum_of_sizes`: raise a `ValidationError`
naming the formatted limit when the total size exceeds the fetched maximum;
otherwise pass (returning the possibly-updated persisted state). -/
def validate_files_sum_of_sizes (fsf : Nat → String) (db : DB)
    (files : List (String × DjangoFile)) : Except String DB :=
  let fetched := get_uploads_max_size db
  let total_size := get_uploaded_files_total_size files
  if fetched.1 < total_size then
    Except.error ("Total upload size exceeds " ++ fsf fetched.1 ++
      ". Please try again with smaller files.")
  else
    Except.ok fetched.2

/-- `LayerUploadForm._get_uploaded_files`: all uploaded files whose field name
is not `"base_file"`. -/
def get_uploaded_files (files : List (String × DjangoFile)) : List DjangoFile :=
  (files.filter (fun p => p.1 != "base_file")).map (fun p => p.2)

/-- The class attribute `LayerUploadForm.spatial_files`; `"sld_file"` is
appended exactly when the geoserver backend is configured. -/
def spatial_files (hasGeoserverBackend : Bool) : List String :=
  let base := ["base_file", "dbf_file", "shx_file", "prj_file", "xml_file"]
  if hasGeoserverBackend then base ++ ["sld_file"] else base

/-- `LayerUploadForm.clean`. `cleaned` is the cleaned form data (its entries do
not matter to this code, so its value type is a parameter `V`); the only key
the method writes, `"valid_extensions"`, is modelled as the second component of
the result. `erroredAlready` models `self.errors` being non-empty after the
field-level pass, and `validator` is the external `validate_uploaded_files`. -/
def LayerUploadForm.clean {V W : Type} (hasGeoserverBackend : Bool)
    (fsf : Nat → String)
    (validator : List (String × V) → List DjangoFile → List String → W)
    (erroredAlready : Bool) (cleaned : List (String × V)) (db : DB)
    (files : List (String × DjangoFile)) :
    Except String (List (String × V) × Option W) :=
  if erroredAlready then
    Except.ok (cleaned, none)
  else
    match validate_files_sum_of_sizes fsf db files with
    | Except.error e => Except.error e
    | Except.ok _ =>
        let uploaded_files := get_uploaded_files files
        let valid_extensions :=
          validator cleaned uploaded_files (spatial_files hasGeoserverBackend)
        Except.ok (cleaned, some valid_extensions)

/-- A dynamically added form field of `TimeForm.__init__`: either a
`forms.ChoiceField` with its `choices` list of `(value, label)` pairs, or a
`forms.CharField` (the two free-text format fields). -/
inductive FormField where
  | choiceField (choices : List (String × String))
  | charField
deriving DecidableEq, Repr

/-- Python truthiness of an optional name list (`if names:`): `None` and the
empty list are falsy. -/
def truthyList : Option (List String) → Bool
  | some l => !l.isEmpty
  | none => false

/-- Python's string comparison `a <= b`: lexicographic by code point, which is
the order on the underlying character list. -/
def strLe (a b : String) : Bool := decide (a.data ≤ b.data)

/-- Python's `list.sort()` on strings: an ascending sort by the lexicographic
string order. Python's sort is stable, but the string order is antisymmetric,
so the sorted permutation is unique and any sorting algorithm is extensionally
faithful; insertion sort is used here. -/
def strSort (l : List String) : List String :=
  List.insertionSort (fun a b => strLe a b = true) l

/-- `TimeForm._build_choice(att, names)`: when `names` is truthy, sort it in
place and register a choice field under `att` whose choices are the
`('', '<None>')` option followed by `(a, a)` for each name. Returns the
(possibly sorted) list together with the updated field dict. -/
def build_choice (att : String) (names : Option (List String))
    (fields : List (String × FormField)) :
    Option (List String) × List (String × FormField) :=
  match names with
  | none => (none, fields)
  | some l =>
      if l.isEmpty then (some l, fields)
      else
        let sorted := strSort l
        let choices := ("", "<None>") :: sorted.map (fun a => (a, a))
        (some sorted, fields ++ [(att, FormField.choiceField choices)])

/-- The state of a `TimeForm` instance after `__init__`: the dynamically added
fields (in insertion order) and the three stored candidate-name lists. The
statically declared fields (`presentation_strategy`, ...) are untouched by the
constructor and are not modelled. -/
structure TimeFormState where
  fields : List (String × FormField)
  timeNamesAttr : Option (List String)
  textNamesAttr : Option (List String)
  yearNamesAttr : Option (List String)
deriving DecidableEq, Repr

/-- `TimeForm.__init__(time_names, text_names, year_names)`: build the six
choice fields and, when text names exist, the two free-text format fields,
threading the in-place sorts through. -/
def TimeForm.init (tNames xNames yNames : Option (List String)) :
    TimeFormState :=
  let s1 := build_choice "time_attribute" tNames []
  let s2 := build_choice "end_time_attribute" s1.1 s1.2
  let s3 := build_choice "text_attribute" xNames s2.2
  let s4 := build_choice "end_text_attribute" s3.1 s3.2
  let s5 :=
    if truthyList s4.1 then
      s4.2 ++ [("text_attribute_format", FormField.charField),
               ("end_text_attribute_format", FormField.charField)]
    else s4.2
  let s6 := build_choice "year_attribute" yNames s5
  let s7 := build_choice "end_year_attribute" s6.1 s6.2
  { fields := s7.2, timeNamesAttr := s2.1, textNamesAttr := s4.1,
    yearNamesAttr := s7.1 }

/-- The `TimeForm.time_names` property. -/
def TimeFormState.time_names (st : TimeFormState) : Option (List String) :=
  st.timeNamesAttr

/-- The `TimeForm.text_names` property. -/
def TimeFormState.text_names (st : TimeFormState) : Option (List String) :=
  st.textNamesAttr

/-- The `TimeForm.year_names` property. -/
def TimeFormState.year_names (st : TimeFormState) : Option (List String) :=
  st.yearNamesAttr

/-- Lookup in the form's field dict (`self.fields[n]`). -/
def lookupField (st : TimeFormState) (n : String) : Option FormField :=
  (st.fields.find? (fun p => p.1 == n)).map (fun p => p.2)

/-- Python truthiness of `self.cleaned_data.get(n, None)` for a choice field:
a missing key (`None`) and the empty string are falsy. -/
def truthyStr : Option String → Bool
  | some v => !(v == "")
  | none => false

/-- `TimeForm._resolve_attribute_and_type(*name_and_types)`: the list of
`(cleaned_data[n], t)` for each candidate `(n, t)` whose cleaned value is
truthy. `cd` is `self.cleaned_data` restricted to the choice fields. -/
def resolve_attribute_and_type (cd : String → Option String)
    (name_and_types : List (String × String)) : List (String × String) :=
  name_and_types.filterMap (fun nt =>
    if truthyStr (cd nt.1) then some ((cd nt.1).getD "", nt.2) else none)

/-- The three "start" candidates of `TimeForm.clean`, with their semantic
types. -/
def start_candidates : List (String × String) :=
  [("time_attribute", "Date"), ("text_attribute", "Text"),
   ("year_attribute", "Number")]

/-- The three "end" candidates of `TimeForm.clean`, with their semantic
types. -/
def end_candidates : List (String × String) :=
  [("end_time_attribute", "Date"), ("end_text_attribute", "Text"),
   ("end_year_attribute", "Number")]

/-- The two keys `TimeForm.clean` may add to `cleaned_data`; the rest of the
cleaned data is untouched by `clean`, so only these are modelled in the
result. -/
structure TimeCleanResult where
  start_attribute : Option (String × String)
  end_attribute : Option (String × String)
deriving DecidableEq, Repr

/-- `TimeForm.clean`: resolve the start and end candidates; more than one
resolved candidate per role raises a `ValidationError`; otherwise the first
(only) resolved pair of each role, if any, is recorded. -/
def TimeForm.clean (cd : String → Option String) :
    Except String TimeCleanResult :=
  let starts := resolve_attribute_and_type cd start_candidates
  if 1 < starts.length then
    Except.error "multiple start attributes"
  else
    let ends := resolve_attribute_and_type cd end_candidates
    if 1 < ends.length then
      Except.error "multiple end attributes"
    else
      Except.ok { start_attribute := starts.head?, end_attribute := ends.head? }

/-- The number of candidates of a role whose cleaned value is truthy. -/
def selected_count (cd : String → Option String)
    (cands : List (String × String)) : Nat :=
  (cands.filter (fun nt => truthyStr (cd nt.1))).length

/-! ### Concrete instances used by the witnesses -/

/-- A stand-in for Django's `filesizeformat`, used to instantiate witnesses. -/
def fsfEx : Nat → String := fun _ => "5 bytes"

/-- A persisted state already holding a size-limit record of 5 bytes. -/
def dbEx : DB := ⟨[⟨"total_upload_size_sum", 5⟩]⟩

/-- A submission whose total counted size is 3 bytes. -/
def filesSmall : List (String × DjangoFile) := [("base_file", ⟨3⟩)]

/-- A submission whose total counted size is 9 bytes. -/
def filesBig : List (String × DjangoFile) := [("base_file", ⟨9⟩)]

/-- A concrete external bundle classifier used by the witness for C4. -/
def validatorEx : List (String × Nat) → List DjangoFile → List String → Nat :=
  fun c u s => c.length + u.length + s.length

/-- A second, distinct classifier used by the witness for C8. -/
def validatorEx2 : List (String × Nat) → List DjangoFile → List String → Nat :=
  fun _ _ _ => 0

/-- The choice field built by `_build_choice` from an already sorted name
list: the `('', '<None>')` option followed by a `(name, name)` pair per
name. -/
def choicesFor (l : List String) : FormField :=
  FormField.choiceField (("", "<None>") :: l.map (fun a => (a, a)))

/-- Cleaned data selecting both a time and a text start attribute. -/
def cdBothStart : String → Option String :=
  fun n => if n == "time_attribute" || n == "text_attribute" then some "a"
    else none

/-- Cleaned data selecting exactly one start attribute but two end
attributes. -/
def cdOneStartTwoEnds : String → Option String :=
  fun n => if n == "time_attribute" || n == "end_time_attribute" ||
      n == "end_text_attribute" then some "a"
    else none

/-- Cleaned data selecting no start attribute and two end attributes. -/
def cdTwoEndsOnly : String → Option String :=
  fun n => if n == "end_time_attribute" || n == "end_text_attribute" then
      some "a"
    else none

/-- Cleaned data selecting one time start attribute and one text end
attribute. -/
def cdOneStartOneEnd : String → Option String :=
  fun n => if n == "time_attribute" then some "d"
    else if n == "end_text_attribute" then some "t"
    else none

/-- Cleaned data selecting nothing. -/
def cdNothing : String → Option String := fun _ => none

/-! ### Helper lemmas -/

/-- The exclusion test of `_get_uploaded_files_total_size`, spelled as the
spec does. -/
theorem excluded_files_decide (s : String) :
    (!(excluded_files.contains s)) =
      decide (s ≠ "zip_file" ∧ s ≠ "shp_file") := by
  by_cases h1 : s = "zip_file" <;> by_cases h2 : s = "shp_file" <;>
    simp [excluded_files, h1, h2]

/-- The exclusion test of `_get_uploaded_files`, spelled as the spec does. -/
theorem base_file_decide (s : String) :
    (s != "base_file") = decide (s ≠ "base_file") := by
  by_cases h : s = "base_file" <;> simp [h]

/-! ### Claims about `LayerUploadForm` -/

/-- Claim C1: `validate_files_sum_of_sizes` raises a `ValidationError` exactly
when the total size of the counted files strictly exceeds the fetched maximum;
the raised message contains the limit formatted by `filesizeformat`; and when
the total is within the limit it passes. -/
theorem validate_files_sum_of_sizes_spec (fsf : Nat → String) (db : DB)
    (files : List (String × DjangoFile)) :
    ((∃ e, validate_files_sum_of_sizes fsf db files = Except.error e) ↔
      (get_uploads_max_size db).1 < get_uploaded_files_total_size files)
    ∧ (∀ e, validate_files_sum_of_sizes fsf db files = Except.error e →
        ∃ s t, e = s ++ fsf (get_uploads_max_size db).1 ++ t)
    ∧ (get_uploaded_files_total_size files ≤ (get_uploads_max_size db).1 →
        validate_files_sum_of_sizes fsf db files =
          Except.ok (get_uploads_max_size db).2) := by
  by_cases h : (get_uploads_max_size db).1 < get_uploaded_files_total_size files
  · have herr : validate_files_sum_of_sizes fsf db files =
        Except.error ("Total upload size exceeds " ++
          fsf (get_uploads_max_size db).1 ++
          ". Please try again with smaller files.") := by
      simp [validate_files_sum_of_sizes, h]
    refine ⟨⟨fun _ => h, fun _ => ⟨_, herr⟩⟩, fun e he => ?_,
      fun hle => absurd h (Nat.not_lt.mpr hle)⟩
    refine ⟨"Total upload size exceeds ",
      ". Please try again with smaller files.", ?_⟩
    exact ((Except.error.injEq _ _).mp (herr.symm.trans he)).symm
  · refine ⟨⟨fun ⟨e, he⟩ => ?_, fun hlt => absurd hlt h⟩,
      fun e he => ?_, fun _ => by simp [validate_files_sum_of_sizes, h]⟩ <;>
    simp [validate_files_sum_of_sizes, h] at he

/-- Witness for C1: with a 5-byte limit, a 3-byte submission passes and the
updated state is returned. -/
theorem validate_files_sum_of_sizes_spec_witness :
    validate_files_sum_of_sizes fsfEx dbEx filesSmall =
      Except.ok (get_uploads_max_size dbEx).2 :=
  (validate_files_sum_of_sizes_spec fsfEx dbEx filesSmall).2.2 (by decide)

/-- Claim C2: `_get_uploaded_files_total_size` sums exactly the sizes of the
submitted files whose field name is neither `"zip_file"` nor `"shp_file"`;
in particular a `"base_file"` entry is counted. -/
theorem get_uploaded_files_total_size_spec
    (files : List (String × DjangoFile)) :
    get_uploaded_files_total_size files =
      ((files.filter (fun p => decide (p.1 ≠ "zip_file" ∧ p.1 ≠ "shp_file"))).map
        (fun p => p.2.size)).sum
    ∧ ∀ (f : DjangoFile) (rest : List (String × DjangoFile)),
        get_uploaded_files_total_size (("base_file", f) :: rest) =
          f.size + get_uploaded_files_total_size rest := by
  constructor
  · unfold get_uploaded_files_total_size
    rw [List.filter_congr (fun a _ => excluded_files_decide a.1)]
  · intro f rest
    simp [get_uploaded_files_total_size, excluded_files]

/-- Claim C3: `_get_uploads_max_size` returns the `max_size` of the record with
slug `"total_upload_size_sum"` when it exists (leaving the state unchanged),
and otherwise creates the default record — afterwards retrievable under that
slug — and returns its `max_size`; these are the only outcomes. -/
theorem get_uploads_max_size_spec (db : DB) :
    (∃ r, dbGet db "total_upload_size_sum" = some r ∧
      get_uploads_max_size db = (r.max_size, db))
    ∨ (dbGet db "total_upload_size_sum" = none ∧
      get_uploads_max_size db =
        ((create_default_limit db).1.max_size, (create_default_limit db).2) ∧
      dbGet (get_uploads_max_size db).2 "total_upload_size_sum" =
        some (create_default_limit db).1) := by
  cases h : dbGet db "total_upload_size_sum" with
  | some r => exact Or.inl ⟨r, rfl, by simp [get_uploads_max_size, h]⟩
  | none =>
      have h2 : db.records.find? (fun r => r.slug == "total_upload_size_sum") =
          none := h
      refine Or.inr ⟨rfl, by simp [get_uploads_max_size, h], ?_⟩
      simp [get_uploads_max_size, h, create_default_limit, dbGet,
        List.find?_append, h2]

/-- Claim C4: when no field-level errors exist and the size check passes,
`LayerUploadForm.clean` hands `validate_uploaded_files` the cleaned data, the
uploaded files other than `"base_file"`, and the spatial field names, and
returns the cleaned data extended with the result under
`"valid_extensions"`. -/
theorem layer_clean_delegates {V W : Type} (hasGeoserverBackend : Bool)
    (fsf : Nat → String)
    (validator : List (String × V) → List DjangoFile → List String → W)
    (cleaned : List (String × V)) (db : DB)
    (files : List (String × DjangoFile))
    (h : get_uploaded_files_total_size files ≤ (get_uploads_max_size db).1) :
    LayerUploadForm.clean hasGeoserverBackend fsf validator false cleaned db
        files =
      Except.ok (cleaned,
        some (validator cleaned (get_uploaded_files files)
          (spatial_files hasGeoserverBackend)))
    ∧ get_uploaded_files files =
        (files.filter (fun p => decide (p.1 ≠ "base_file"))).map
          (fun p => p.2) := by
  constructor
  · simp [LayerUploadForm.clean, validate_files_sum_of_sizes, Nat.not_lt.mpr h]
  · unfold get_uploaded_files
    rw [List.filter_congr (fun a _ => base_file_decide a.1)]

/-- Witness for C4: a passing 3-byte submission reaches the classifier and its
result is stored under `"valid_extensions"`. -/
theorem layer_clean_delegates_witness :
    LayerUploadForm.clean true fsfEx validatorEx false [("charset", 0)] dbEx
        filesSmall =
      Except.ok ([("charset", 0)],
        some (validatorEx [("charset", 0)] (get_uploaded_files filesSmall)
          (spatial_files true))) :=
  (layer_clean_delegates true fsfEx validatorEx [("charset", 0)] dbEx
    filesSmall (by decide)).1

/-- Claim C8: `LayerUploadForm.clean` short-circuits — with pre-existing field
errors it returns the cleaned data untouched (no size check, no classifier,
no `"valid_extensions"`), and when the size check fails the error propagates
identically for every classifier, so the classifier is never consulted. -/
theorem layer_clean_short_circuit {V W : Type} (hasGeoserverBackend : Bool)
    (fsf : Nat → String)
    (validator validator2 : List (String × V) → List DjangoFile → List String → W)
    (cleaned : List (String × V)) (db : DB)
    (files : List (String × DjangoFile)) :
    LayerUploadForm.clean hasGeoserverBackend fsf validator true cleaned db
        files = Except.ok (cleaned, none)
    ∧ ((get_uploads_max_size db).1 < get_uploaded_files_total_size files →
        ∃ e, LayerUploadForm.clean hasGeoserverBackend fsf validator false
              cleaned db files = Except.error e
          ∧ LayerUploadForm.clean hasGeoserverBackend fsf validator2 false
              cleaned db files = Except.error e) := by
  constructor
  · rfl
  · intro h
    refine ⟨"Total upload size exceeds " ++ fsf (get_uploads_max_size db).1 ++
      ". Please try again with smaller files.", ?_, ?_⟩ <;>
      simp [LayerUploadForm.clean, validate_files_sum_of_sizes, h]

/-- Witness for C8: with a 5-byte limit and a 9-byte submission, two distinct
classifiers yield the same size error. -/
theorem layer_clean_short_circuit_witness :
    ∃ e, LayerUploadForm.clean true fsfEx validatorEx false [] dbEx filesBig =
        Except.error e
      ∧ LayerUploadForm.clean true fsfEx validatorEx2 false [] dbEx
          filesBig = Except.error e :=
  (layer_clean_short_circuit true fsfEx validatorEx validatorEx2 [] dbEx
    filesBig).2 (by decide)

/-- The Boolean comparison used by `strSort` agrees with the string order. -/
theorem strLe_iff (a b : String) : strLe a b = true ↔ a ≤ b := by
  rw [String.le_iff_toList_le]
  simp only [strLe, decide_eq_true_eq]
  exact Iff.rfl

/-- Sorting is a permutation. -/
theorem strSort_perm (l : List String) : (strSort l).Perm l :=
  List.perm_insertionSort _ l

/-- The sort is ascending with respect to the string order. -/
theorem strSort_sorted (l : List String) : (strSort l).Sorted (· ≤ ·) := by
  have htot : IsTotal String (fun a b => strLe a b = true) :=
    ⟨fun a b => by
      rcases le_total a b with h | h
      · exact Or.inl ((strLe_iff a b).mpr h)
      · exact Or.inr ((strLe_iff b a).mpr h)⟩
  have htr : IsTrans String (fun a b => strLe a b = true) :=
    ⟨fun a b c h1 h2 =>
      (strLe_iff a c).mpr
        (le_trans ((strLe_iff a b).mp h1) ((strLe_iff b c).mp h2))⟩
  exact (@List.sorted_insertionSort String _ _ htot htr l).imp
    (fun h => (strLe_iff _ _).mp h)

/-- Sorting an already sorted list changes nothing (the second in-place
`list.sort()` of each name list is a no-op). -/
theorem strSort_idem (l : List String) : strSort (strSort l) = strSort l :=
  List.eq_of_perm_of_sorted (strSort_perm (strSort l))
    (strSort_sorted (strSort l)) (strSort_sorted l)

/-- Sorting the empty list is a no-op. -/
theorem strSort_nil : strSort [] = [] := rfl

/-- Emptiness check of a non-empty list. -/
theorem ne_nil_isEmpty {l : List String} (h : l ≠ []) : l.isEmpty = false :=
  List.isEmpty_eq_false.mpr h

/-- Sorting a non-empty list yields a non-empty list. -/
theorem strSort_isEmpty_eq_false {l : List String} (h : l ≠ []) :
    (strSort l).isEmpty = false := by
  rw [List.isEmpty_eq_false]
  intro hnil
  apply h
  have hlen := (strSort_perm l).length_eq
  rw [hnil] at hlen
  exact List.length_eq_zero.mp hlen.symm

/-- The number of resolved pairs equals the number of truthy candidates. -/
theorem length_resolve (cd : String → Option String)
    (nts : List (String × String)) :
    (resolve_attribute_and_type cd nts).length = selected_count cd nts := by
  induction nts with
  | nil => rfl
  | cons nt rest ih =>
      simp only [resolve_attribute_and_type, selected_count,
        List.filterMap_cons, List.filter_cons] at *
      cases h : truthyStr (cd nt.1) <;> simp [h, ih]

/-- With at most one truthy candidate among three, the resolved head is the
pair of the truthy candidate. -/
theorem head_resolve_three (cd : String → Option String)
    (c1 c2 c3 : String × String) (n t v : String)
    (hcount : selected_count cd [c1, c2, c3] ≤ 1)
    (hmem : (n, t) ∈ [c1, c2, c3]) (hv : cd n = some v) (hne : v ≠ "") :
    (resolve_attribute_and_type cd [c1, c2, c3]).head? = some (v, t) := by
  have hsel : truthyStr (cd n) = true := by simp [truthyStr, hv, hne]
  simp only [List.mem_cons, List.not_mem_nil, or_false] at hmem
  cases h1 : truthyStr (cd c1.1) <;> cases h2 : truthyStr (cd c2.1) <;>
    cases h3 : truthyStr (cd c3.1) <;>
    rcases hmem with rfl | rfl | rfl <;>
    simp_all [resolve_attribute_and_type, selected_count, List.filter_cons,
      List.filterMap_cons, hv]

/-! ### Claims about `TimeForm.clean` -/

/-- Claim C5: if more than one start candidate, or more than one end
candidate, resolves to a non-empty selection, `TimeForm.clean` raises a
`ValidationError`. -/
theorem time_clean_multiple_error (cd : String → Option String)
    (h : 1 < selected_count cd start_candidates ∨
      1 < selected_count cd end_candidates) :
    ∃ e, TimeForm.clean cd = Except.error e := by
  by_cases hs : 1 < (resolve_attribute_and_type cd start_candidates).length
  · exact ⟨"multiple start attributes", by simp [TimeForm.clean, hs]⟩
  · have he : 1 < (resolve_attribute_and_type cd end_candidates).length := by
      rw [length_resolve]
      rcases h with h | h
      · rw [length_resolve] at hs
        exact absurd h hs
      · exact h
    exact ⟨"multiple end attributes", by simp [TimeForm.clean, hs, he]⟩

/-- Witness for C5: selecting both a time and a text start attribute is
rejected. -/
theorem time_clean_multiple_error_witness :
    ∃ e, TimeForm.clean cdBothStart = Except.error e :=
  time_clean_multiple_error cdBothStart (Or.inl (by decide))

/-- Counterexample to C6 as stated: a submission with exactly one selected
start candidate on which `TimeForm.clean` nevertheless raises (two end
candidates are selected), so selecting exactly one candidate for a role does
not by itself make `clean` succeed. -/
theorem time_clean_one_start_counterexample :
    selected_count cdOneStartTwoEnds start_candidates = 1 ∧
    TimeForm.clean cdOneStartTwoEnds =
      Except.error "multiple end attributes" := by
  exact ⟨rfl, rfl⟩

/-- Claim C6 (amended): when at most one candidate is selected per role,
`TimeForm.clean` succeeds, and a role with a selected candidate gets the pair
of the selected name and the candidate's semantic type — `"Date"` for the time
candidate, `"Text"` for the text candidate, `"Number"` for the year candidate;
the roles are resolved independently. -/
theorem time_clean_one_per_role (cd : String → Option String)
    (hs : selected_count cd start_candidates ≤ 1)
    (he : selected_count cd end_candidates ≤ 1) :
    ∃ r, TimeForm.clean cd = Except.ok r
      ∧ (∀ n t v, (n, t) ∈ start_candidates → cd n = some v → v ≠ "" →
          r.start_attribute = some (v, t))
      ∧ (∀ n t v, (n, t) ∈ end_candidates → cd n = some v → v ≠ "" →
          r.end_attribute = some (v, t)) := by
  have hs2 : ¬ 1 < (resolve_attribute_and_type cd start_candidates).length := by
    rw [length_resolve]
    exact Nat.not_lt.mpr hs
  have he2 : ¬ 1 < (resolve_attribute_and_type cd end_candidates).length := by
    rw [length_resolve]
    exact Nat.not_lt.mpr he
  refine ⟨⟨(resolve_attribute_and_type cd start_candidates).head?,
      (resolve_attribute_and_type cd end_candidates).head?⟩,
    by simp [TimeForm.clean, hs2, he2], ?_, ?_⟩
  · intro n t v hmem hv hne
    exact head_resolve_three cd _ _ _ n t v hs hmem hv hne
  · intro n t v hmem hv hne
    exact head_resolve_three cd _ _ _ n t v he hmem hv hne

/-- Witness for C6 (amended): one time start and one text end are accepted,
with independently resolved types. -/
theorem time_clean_one_per_role_witness :
    TimeForm.clean cdOneStartOneEnd =
      Except.ok ⟨some ("d", "Date"), some ("t", "Text")⟩ := by
  obtain ⟨r, hok, hstart, hend⟩ :=
    time_clean_one_per_role cdOneStartOneEnd (by decide) (by decide)
  have h1 := hstart "time_attribute" "Date" "d" (by decide) rfl (by decide)
  have h2 := hend "end_text_attribute" "Text" "t" (by decide) rfl (by decide)
  rw [hok]
  cases r
  simp only at h1 h2
  rw [h1, h2]

/-- Counterexample to C10 as stated: a submission with no selected start
candidate on which `TimeForm.clean` nevertheless raises (two end candidates
are selected), so an unselected role does not by itself make `clean`
succeed. -/
theorem time_clean_no_start_counterexample :
    selected_count cdTwoEndsOnly start_candidates = 0 ∧
    TimeForm.clean cdTwoEndsOnly =
      Except.error "multiple end attributes" := by
  exact ⟨rfl, rfl⟩

/-- Claim C10 (amended): when no candidate is selected for a role and at most
one is selected for the other role, `TimeForm.clean` succeeds and attaches
nothing for the unselected role. -/
theorem time_clean_none_selected (cd : String → Option String) :
    (selected_count cd start_candidates = 0 →
      selected_count cd end_candidates ≤ 1 →
      ∃ r, TimeForm.clean cd = Except.ok r ∧ r.start_attribute = none)
    ∧ (selected_count cd end_candidates = 0 →
      selected_count cd start_candidates ≤ 1 →
      ∃ r, TimeForm.clean cd = Except.ok r ∧ r.end_attribute = none) := by
  constructor
  · intro h0 h1
    have hs0 : resolve_attribute_and_type cd start_candidates = [] := by
      apply List.length_eq_zero.mp
      rw [length_resolve]
      exact h0
    have he2 : ¬ 1 < (resolve_attribute_and_type cd end_candidates).length := by
      rw [length_resolve]
      exact Nat.not_lt.mpr h1
    exact ⟨⟨none, (resolve_attribute_and_type cd end_candidates).head?⟩,
      by simp [TimeForm.clean, hs0, he2], rfl⟩
  · intro h0 h1
    have he0 : resolve_attribute_and_type cd end_candidates = [] := by
      apply List.length_eq_zero.mp
      rw [length_resolve]
      exact h0
    have hs2 : ¬ 1 < (resolve_attribute_and_type cd start_candidates).length := by
      rw [length_resolve]
      exact Nat.not_lt.mpr h1
    exact ⟨⟨(resolve_attribute_and_type cd start_candidates).head?, none⟩,
      by simp [TimeForm.clean, he0, hs2], rfl⟩

/-- Witness for C10 (amended): an empty selection cleans successfully with no
start attribute attached. -/
theorem time_clean_none_selected_witness :
    ∃ r, TimeForm.clean cdNothing = Except.ok r ∧ r.start_attribute = none :=
  (time_clean_none_selected cdNothing).1 (by decide) (by decide)

/-! ### Claims about `TimeForm.__init__` -/

/-- Claim C7: for non-empty candidate name lists, the constructor registers a
choice field per attribute role whose choices are the `('', '<None>')` option
followed by the names in ascending sorted order (time roles from the time
names, text roles from the text names, year roles from the year names), and it
registers the two free-text format fields exactly when the text name list is
non-empty. -/
theorem time_init_fields (tn txn yn : List String) :
    (∀ l : List String, (strSort l).Perm l ∧ (strSort l).Sorted (· ≤ ·))
    ∧ (tn ≠ [] →
        lookupField (TimeForm.init (some tn) (some txn) (some yn))
          "time_attribute" = some (choicesFor (strSort tn))
        ∧ lookupField (TimeForm.init (some tn) (some txn) (some yn))
          "end_time_attribute" = some (choicesFor (strSort tn)))
    ∧ (txn ≠ [] →
        lookupField (TimeForm.init (some tn) (some txn) (some yn))
          "text_attribute" = some (choicesFor (strSort txn))
        ∧ lookupField (TimeForm.init (some tn) (some txn) (some yn))
          "end_text_attribute" = some (choicesFor (strSort txn)))
    ∧ (lookupField (TimeForm.init (some tn) (some txn) (some yn))
        "text_attribute_format" = some FormField.charField ↔ txn ≠ [])
    ∧ (lookupField (TimeForm.init (some tn) (some txn) (some yn))
        "end_text_attribute_format" = some FormField.charField ↔ txn ≠ [])
    ∧ (yn ≠ [] →
        lookupField (TimeForm.init (some tn) (some txn) (some yn))
          "year_attribute" = some (choicesFor (strSort yn))
        ∧ lookupField (TimeForm.init (some tn) (some txn) (some yn))
          "end_year_attribute" = some (choicesFor (strSort yn))) := by
  refine ⟨fun l => ⟨strSort_perm l, strSort_sorted l⟩, ?_⟩
  by_cases h1 : tn = [] <;> by_cases h2 : txn = [] <;> by_cases h3 : yn = [] <;>
    simp_all [TimeForm.init, build_choice, truthyList, lookupField, choicesFor,
      strSort_idem, strSort_nil, ne_nil_isEmpty, strSort_isEmpty_eq_false]

/-- Witness for C7: with time names `["b", "a"]` and text names `["x"]`, the
time choice field offers the sorted names and the format field exists. -/
theorem time_init_fields_witness :
    lookupField (TimeForm.init (some ["b", "a"]) (some ["x"]) (some ["y"]))
        "time_attribute" = some (choicesFor ["a", "b"])
    ∧ lookupField (TimeForm.init (some ["b", "a"]) (some ["x"]) (some ["y"]))
        "text_attribute_format" = some FormField.charField := by
  have h := time_init_fields ["b", "a"] ["x"] ["y"]
  exact ⟨(h.2.1 (by decide)).1.trans (by decide),
    h.2.2.2.1.mpr (by decide)⟩

/-- Claim C9: the constructor sorts each supplied non-empty name list in
place (modelled by the state the constructor returns), so the `time_names`,
`text_names` and `year_names` properties afterwards return those lists in
ascending sorted order. -/
theorem time_init_sorts_names (tn txn yn : List String) :
    (tn ≠ [] →
      (TimeForm.init (some tn) (some txn) (some yn)).time_names =
        some (strSort tn)
      ∧ (strSort tn).Perm tn ∧ (strSort tn).Sorted (· ≤ ·))
    ∧ (txn ≠ [] →
      (TimeForm.init (some tn) (some txn) (some yn)).text_names =
        some (strSort txn)
      ∧ (strSort txn).Perm txn ∧ (strSort txn).Sorted (· ≤ ·))
    ∧ (yn ≠ [] →
      (TimeForm.init (some tn) (some txn) (some yn)).year_names =
        some (strSort yn)
      ∧ (strSort yn).Perm yn ∧ (strSort yn).Sorted (· ≤ ·)) := by
  refine ⟨fun h => ⟨?_, strSort_perm tn, strSort_sorted tn⟩,
    fun h => ⟨?_, strSort_perm txn, strSort_sorted txn⟩,
    fun h => ⟨?_, strSort_perm yn, strSort_sorted yn⟩⟩ <;>
  by_cases h1 : tn = [] <;> by_cases h2 : txn = [] <;> by_cases h3 : yn = [] <;>
    simp_all [TimeForm.init, build_choice, TimeFormState.time_names,
      TimeFormState.text_names, TimeFormState.year_names, truthyList,
      strSort_idem, strSort_nil, ne_nil_isEmpty, strSort_isEmpty_eq_false]

/-- Witness for C9: the constructor leaves the three name lists sorted. -/
theorem time_init_sorts_names_witness :
    (TimeForm.init (some ["b", "a"]) (some ["n2", "n1"])
        (some ["z", "y"])).time_names = some ["a", "b"]
    ∧ (TimeForm.init (some ["b", "a"]) (some ["n2", "n1"])
        (some ["z", "y"])).text_names = some ["n1", "n2"]
    ∧ (TimeForm.init (some ["b", "a"]) (some ["n2", "n1"])
        (some ["z", "y"])).year_names = some ["y", "z"] := by
  have h := time_init_sorts_names ["b", "a"] ["n2", "n1"] ["z", "y"]
  exact ⟨(h.1 (by decide)).1.trans (by decide),
    (h.2.1 (by decide)).1.trans (by decide),
    (h.2.2 (by decide)).1.trans (by decide)⟩

end Geonode
